import Mathlib

/-!
Verification of the prosthetic-arm teleoperation stack: a shallow embedding
of the servo configuration (`arm_control/servo_config.py`), the serial
controller (`arm_control/arduino_serial.py`), the pose mapper
(`vision/pose_mapper.py`) and the smoothing loop of
`examples/gesture_arm_control.py`, with theorems settling the spec's claims.

Python floats are modelled as rationals; the serial port is modelled by an
oracle saying whether each write succeeds, and the bytes handed to
`serial.write` are returned as an explicit wire trace.
-/

namespace ProstheticArm

/-- The four servo names used as dictionary keys throughout the code. -/
inductive Servo
  | shoulder
  | elbow
  | wrist
  | hand
deriving DecidableEq, Repr

open Servo

/-- `SERVO_LIMITS` from `servo_config.py`: min/max angles per servo. -/
def SERVO_LIMITS : Servo → ℚ × ℚ
  | .shoulder => (0, 180)
  | .elbow => (0, 180)
  | .wrist => (0, 180)
  | .hand => (0, 180)

/-- `REST_POSITION` from `servo_config.py`. -/
def REST_POSITION : Servo → ℚ
  | .shoulder => 90
  | .elbow => 90
  | .wrist => 90
  | .hand => 0

/-- `REST_POSITION` as the (insertion-ordered) list of pairs that
`set_multiple_servos(REST_POSITION)` iterates over. -/
def REST_POSITION_items : List (Servo × ℚ) :=
  [(.shoulder, 90), (.elbow, 90), (.wrist, 90), (.hand, 0)]

/-- `SMOOTHING_FACTOR` from `servo_config.py`. -/
def SMOOTHING_FACTOR : ℚ := 3 / 10

/-- `clamp_angle` from `servo_config.py`:
`max(min_angle, min(max_angle, angle))`. -/
def clamp_angle (angle : ℚ) (servo_name : Servo) : ℚ :=
  max (SERVO_LIMITS servo_name).1 (min (SERVO_LIMITS servo_name).2 angle)

/-- The servo-index dictionary inside `ArduinoController.set_servo`:
`\x7b'shoulder': 0, 'elbow': 1, 'wrist': 2, 'hand': 3\x7d`. -/
def servo_id : Servo → ℕ
  | .shoulder => 0
  | .elbow => 1
  | .wrist => 2
  | .hand => 3

/-- Python `int()` on a float: truncation toward zero (ceiling for
negative values, floor otherwise). -/
def pyInt (q : ℚ) : ℤ := if q < 0 then ⌈q⌉ else ⌊q⌋

/-- Mutable state of an `ArduinoController`: the `connected` flag and the
`current_angles` dictionary (always holding all four keys, as it is
initialised from `REST_POSITION.copy()`). -/
structure ControllerState where
  connected : Bool
  current_angles : Servo → ℚ

/-- The controller state right after `__init__` (with the `connected` flag
left parametric so that post-`connect()` states are covered too). -/
def init_state (c : Bool) : ControllerState :=
  { connected := c, current_angles := REST_POSITION }

/-- Outcome of one `set_servo` call: the updated controller state, the
returned boolean, and the wire line handed to `serial.write` (`none` when
no write call was made). -/
structure SetServoResult where
  state : ControllerState
  ok : Bool
  wire : Option String

/-- `ArduinoController.set_servo`.  When not connected it returns `False`
with no state change and no write.  Otherwise it clamps the angle, stores
it in `current_angles` under the lock, formats the command
`S<servo_id>,<int(angle)>\n`, and attempts the serial write; `writeOk`
models whether `serial.write` raises.  The stored angle is not rolled back
on a failed write. -/
def set_servo (writeOk : Bool) (st : ControllerState) (servo_name : Servo)
    (angle : ℚ) : SetServoResult :=
  if st.connected = false then
    { state := st, ok := false, wire := none }
  else
    let a := clamp_angle angle servo_name
    let st' : ControllerState :=
      { st with current_angles :=
          fun j => if j = servo_name then a else st.current_angles j }
    let command : String :=
      "S" ++ toString (servo_id servo_name) ++ "," ++ toString (pyInt a) ++ "\n"
    { state := st', ok := writeOk, wire := some command }

/-- `ArduinoController.set_multiple_servos`: iterates over the dictionary
items calling `set_servo` and discarding its boolean result.  The Python
function returns `None`; the only outputs are the mutated state and the
wire lines attempted (collected here as a trace, one entry per item). -/
def set_multiple_servos (writeOk : Servo → Bool) (st : ControllerState) :
    List (Servo × ℚ) → ControllerState × List (Option String)
  | [] => (st, [])
  | p :: rest =>
    let r := set_servo (writeOk p.1) st p.1 p.2
    let next := set_multiple_servos writeOk r.state rest
    (next.1, r.wire :: next.2)

/-- `ArduinoController.get_current_angles`: returns a copy of
`current_angles` (a pure read in this model). -/
def get_current_angles (st : ControllerState) : Servo → ℚ :=
  st.current_angles

/-- `ArduinoController.reset_to_rest`: `set_multiple_servos(REST_POSITION)`. -/
def reset_to_rest (writeOk : Servo → Bool) (st : ControllerState) :
    ControllerState × List (Option String) :=
  set_multiple_servos writeOk st REST_POSITION_items

/-- A connected controller at the rest pose (state after a successful
`connect()`), used for concrete evaluations. -/
def connState : ControllerState := { connected := true, current_angles := REST_POSITION }

/-- The wire line as the spec describes it after amendment: joint index per
the fixed table, angle clamped and then truncated to an integer by
Python's `int()`. -/
def wire_line_spec (s : Servo) (angle : ℚ) : String :=
  "S" ++ toString (servo_id s) ++ "," ++ toString (pyInt (clamp_angle angle s)) ++ "\n"

/-- The operations of claim C4, each carrying the success oracle of its
serial writes. -/
inductive ArmOp where
  | setServoOp (writeOk : Bool) (s : Servo) (a : ℚ)
  | setMultipleOp (writeOk : Servo → Bool) (l : List (Servo × ℚ))
  | resetOp (writeOk : Servo → Bool)

/-- State effect of one `ArmOp` on the controller. -/
def apply_op (st : ControllerState) : ArmOp → ControllerState
  | .setServoOp ok s a => (set_servo ok st s a).state
  | .setMultipleOp ok l => (set_multiple_servos ok st l).1
  | .resetOp ok => (reset_to_rest ok st).1

/-- Run a sequence of controller operations. -/
def run_ops (st : ControllerState) (ops : List ArmOp) : ControllerState :=
  ops.foldl apply_op st

/-- All four current angles lie within their configured `SERVO_LIMITS`. -/
def in_limits (f : Servo → ℚ) : Prop :=
  ∀ j, (SERVO_LIMITS j).1 ≤ f j ∧ f j ≤ (SERVO_LIMITS j).2

/-- One MediaPipe landmark dictionary entry as built in
`gesture_recognition.py` (keys `x`, `y`, `z`, `visibility`). -/
structure Keypoint where
  x : ℚ
  y : ℚ
  z : ℚ
  visibility : ℚ
deriving DecidableEq, Repr

/-- The hand-detection dictionary as consumed by `PoseMapper` (only the
`keypoints` entry is read there). -/
structure HandData where
  keypoints : List Keypoint
deriving DecidableEq, Repr

/-- `PoseMapper.screen_bounds`. -/
structure ScreenBounds where
  left : ℚ
  right : ℚ
  top : ℚ
  bottom : ℚ
deriving DecidableEq, Repr

/-- The calibration defaults set in `PoseMapper.__init__`. -/
def default_screen_bounds : ScreenBounds :=
  { left := 1/5, right := 4/5, top := 1/5, bottom := 4/5 }

/-- `PoseMapper.servo_ranges`. -/
def servo_ranges : Servo → ℚ × ℚ
  | .shoulder => (0, 180)
  | .elbow => (0, 180)
  | .wrist => (0, 180)
  | .hand => (0, 180)

/-- `np.clip(v, lo, hi)`. -/
def npClip (v lo hi : ℚ) : ℚ := max lo (min hi v)

/-- Python `%` on floats for a positive modulus: `a - m * floor (a / m)`,
the result having the sign of the modulus. -/
def pymod (a m : ℚ) : ℚ := a - m * ⌊a / m⌋

/-- `PoseMapper._map_x_to_shoulder`: clamp `x` to the horizontal band,
normalise within the band, rescale into the shoulder servo range. -/
def map_x_to_shoulder (b : ScreenBounds) (x : ℚ) : ℚ :=
  let xc := max b.left (min b.right x)
  let normalized := (xc - b.left) / (b.right - b.left)
  let mn := (servo_ranges .shoulder).1
  let mx := (servo_ranges .shoulder).2
  mn + normalized * (mx - mn)

/-- `PoseMapper._map_y_to_elbow`: same rescale on the vertical band into
the elbow servo range. -/
def map_y_to_elbow (b : ScreenBounds) (y : ℚ) : ℚ :=
  let yc := max b.top (min b.bottom y)
  let normalized := (yc - b.top) / (b.bottom - b.top)
  let mn := (servo_ranges .elbow).1
  let mx := (servo_ranges .elbow).2
  mn + normalized * (mx - mn)

/-- `PoseMapper._calculate_hand_rotation`, parametric in the (irrational)
`atan2`-in-degrees primitive; keypoint accesses `kp[0]` and `kp[9]` are
fallible, `none` modelling the raised `IndexError`. -/
def calculate_hand_rotation (atan2d : ℚ → ℚ → ℚ) (hd : HandData) : Option ℚ :=
  (hd.keypoints.get? 0).bind fun kp0 =>
    (hd.keypoints.get? 9).bind fun kp9 =>
      let dx := kp9.x - kp0.x
      let dy := kp9.y - kp0.y
      some (pymod (atan2d dy dx + 90) 180)

/-- `PoseMapper._calculate_hand_openness`, parametric in the (irrational)
square root used by `np.linalg.norm`; the fingertip and wrist keypoint
accesses are fallible, `none` modelling the raised `IndexError`. -/
def calculate_hand_openness (sqrtQ : ℚ → ℚ) (hd : HandData) : Option ℚ :=
  (hd.keypoints.get? 4).bind fun kp4 =>
    (hd.keypoints.get? 8).bind fun kp8 =>
      (hd.keypoints.get? 12).bind fun kp12 =>
        (hd.keypoints.get? 16).bind fun kp16 =>
          (hd.keypoints.get? 20).bind fun kp20 =>
            (hd.keypoints.get? 0).bind fun kp0 =>
              let dist := fun p : Keypoint => sqrtQ ((p.x - kp0.x) ^ 2 + (p.y - kp0.y) ^ 2)
              let avg_distance := (dist kp4 + dist kp8 + dist kp12 + dist kp16 + dist kp20) / 5
              let openness := 1 - npClip (avg_distance / (2/5)) 0 1
              some (openness * 180)

/-- Observable outcome of `PoseMapper.hand_position_to_arm`: the empty
dictionary, a full four-angle dictionary, or an uncaught `IndexError`
from a keypoint access. -/
inductive MapResult where
  | empty
  | angles (shoulder elbow wrist hand : ℚ)
  | indexError
deriving DecidableEq, Repr

/-- `PoseMapper.hand_position_to_arm`: returns the empty dictionary when
`hand_center` or `hand_data` is `None`; otherwise maps the four joints,
propagating any keypoint `IndexError`. -/
def hand_position_to_arm (atan2d : ℚ → ℚ → ℚ) (sqrtQ : ℚ → ℚ) (b : ScreenBounds)
    (hand_center : Option (ℚ × ℚ)) (hand_data : Option HandData) : MapResult :=
  match hand_center, hand_data with
  | none, _ => .empty
  | _, none => .empty
  | some (x, y), some hd =>
    let shoulder_angle := map_x_to_shoulder b x
    let elbow_angle := map_y_to_elbow b y
    match calculate_hand_rotation atan2d hd, calculate_hand_openness sqrtQ hd with
    | some wrist_angle, some hand_angle =>
      .angles shoulder_angle elbow_angle wrist_angle hand_angle
    | _, _ => .indexError

/-- One exponential-smoothing step as written in
`ArmGestureController.process_frame` and `send_angles_to_arm`:
`current + factor * (target - current)`. -/
def smooth_step (factor target current : ℚ) : ℚ :=
  current + factor * (target - current)

/-- `n` repetitions of `smooth_step` toward a fixed target. -/
def smooth_iter (factor target current : ℚ) : ℕ → ℚ
  | 0 => current
  | n + 1 => smooth_step factor target (smooth_iter factor target current n)

/-- The target-angle update of `ArmGestureController.process_frame`
(lines 71-75): `if new_angles:` skips the loop when the mapped dictionary
is empty, otherwise each mapped entry is smoothed into `target_angles`. -/
def update_targets (factor : ℚ) (targets : Servo → ℚ)
    (new_angles : List (Servo × ℚ)) : Servo → ℚ :=
  if new_angles.isEmpty then targets
  else new_angles.foldl
    (fun t p => Function.update t p.1 (smooth_step factor p.2 (t p.1))) targets

section ControllerLemmas

theorem servo_limits_le (s : Servo) : (SERVO_LIMITS s).1 ≤ (SERVO_LIMITS s).2 := by
  cases s <;> norm_num [SERVO_LIMITS]

theorem clamp_angle_mem (a : ℚ) (s : Servo) :
    (SERVO_LIMITS s).1 ≤ clamp_angle a s ∧ clamp_angle a s ≤ (SERVO_LIMITS s).2 := by
  refine ⟨le_max_left _ _, max_le (servo_limits_le s) (min_le_left _ _)⟩

theorem set_servo_wire_eq (ok : Bool) (st : ControllerState) (s : Servo) (a : ℚ)
    (h : st.connected = true) :
    (set_servo ok st s a).wire = some (wire_line_spec s a) := by
  simp [set_servo, h, wire_line_spec]

theorem set_servo_ok_irrel (ok ok' : Bool) (st : ControllerState) (s : Servo) (a : ℚ)
    (h : st.connected = true) :
    set_servo ok st s a = { set_servo ok' st s a with ok := ok } := by
  simp [set_servo, h]

theorem set_servo_state_connected (ok : Bool) (st : ControllerState) (s : Servo) (a : ℚ) :
    (set_servo ok st s a).state.connected = st.connected := by
  rw [set_servo]
  split <;> rfl

theorem set_servo_preserves_limits (ok : Bool) (st : ControllerState) (s : Servo) (a : ℚ)
    (h : in_limits st.current_angles) :
    in_limits (set_servo ok st s a).state.current_angles := by
  by_cases hc : st.connected = false
  · rw [set_servo, if_pos hc]
    exact h
  · rw [set_servo, if_neg hc]
    intro j
    dsimp only
    by_cases hj : j = s
    · subst hj
      rw [if_pos rfl]
      exact clamp_angle_mem a j
    · rw [if_neg hj]
      exact h j

theorem set_multiple_servos_oracle_irrel (f g : Servo → Bool) (st : ControllerState)
    (l : List (Servo × ℚ)) :
    set_multiple_servos f st l = set_multiple_servos g st l := by
  induction l generalizing st with
  | nil => rfl
  | cons p rest ih =>
    rw [set_multiple_servos, set_multiple_servos]
    have hst : (set_servo (f p.1) st p.1 p.2).state = (set_servo (g p.1) st p.1 p.2).state := by
      rw [set_servo, set_servo]
      split <;> rfl
    have hw : (set_servo (f p.1) st p.1 p.2).wire = (set_servo (g p.1) st p.1 p.2).wire := by
      rw [set_servo, set_servo]
      split <;> rfl
    rw [hst, hw, ih]

theorem set_multiple_servos_connected (f : Servo → Bool) (st : ControllerState)
    (l : List (Servo × ℚ)) :
    (set_multiple_servos f st l).1.connected = st.connected := by
  induction l generalizing st with
  | nil => rfl
  | cons p rest ih =>
    rw [set_multiple_servos]
    exact (ih _).trans (set_servo_state_connected _ _ _ _)

theorem set_multiple_servos_trace (f : Servo → Bool) (st : ControllerState)
    (l : List (Servo × ℚ)) (h : st.connected = true) :
    (set_multiple_servos f st l).2 = l.map fun p => some (wire_line_spec p.1 p.2) := by
  induction l generalizing st with
  | nil => rfl
  | cons p rest ih =>
    rw [set_multiple_servos, List.map_cons]
    have hc : (set_servo (f p.1) st p.1 p.2).state.connected = true :=
      (set_servo_state_connected _ _ _ _).trans h
    rw [set_servo_wire_eq _ _ _ _ h, ih _ hc]

theorem set_multiple_servos_preserves_limits (f : Servo → Bool) (st : ControllerState)
    (l : List (Servo × ℚ)) (h : in_limits st.current_angles) :
    in_limits (set_multiple_servos f st l).1.current_angles := by
  induction l generalizing st with
  | nil => exact h
  | cons p rest ih =>
    rw [set_multiple_servos]
    exact ih _ (set_servo_preserves_limits _ _ _ _ h)

theorem apply_op_preserves_limits (st : ControllerState) (op : ArmOp)
    (h : in_limits st.current_angles) :
    in_limits (apply_op st op).current_angles := by
  cases op with
  | setServoOp ok s a => exact set_servo_preserves_limits _ _ _ _ h
  | setMultipleOp ok l => exact set_multiple_servos_preserves_limits _ _ _ h
  | resetOp ok => exact set_multiple_servos_preserves_limits _ _ _ h

theorem rest_in_limits : in_limits REST_POSITION := by
  intro j
  cases j <;> norm_num [SERVO_LIMITS, REST_POSITION]

theorem run_ops_preserves_limits (st : ControllerState) (ops : List ArmOp)
    (h : in_limits st.current_angles) :
    in_limits (run_ops st ops).current_angles := by
  induction ops generalizing st with
  | nil => exact h
  | cons op rest ih =>
    rw [run_ops, List.foldl_cons]
    exact ih _ (apply_op_preserves_limits _ _ h)

end ControllerLemmas

/-- C1 counterexample: encoding `(Shoulder, 90.6)` on a connected controller
produces the wire line `"S0,90\n"` — Python's `int()` truncates the clamped
angle — not `"S0,91\n"` as the claim's round-to-nearest reading states. -/
theorem C1_counterexample :
    (set_servo true connState .shoulder (453/5)).wire = some "S0,90\n" ∧
    ("S0,90\n" : String) ≠ "S0,91\n" := by
  constructor
  · rw [set_servo_wire_eq true connState .shoulder (453/5) rfl]
    have h1 : clamp_angle (453/5) .shoulder = 453/5 := by
      rw [clamp_angle]
      norm_num [SERVO_LIMITS]
    have h2 : pyInt (453/5) = 90 := by
      rw [pyInt, if_neg (by norm_num)]
      norm_num
    rw [wire_line_spec, h1, h2]
    decide
  · decide

/-- C1 (amended): for every joint and angle, on a connected controller the
wire line produced by `set_servo` is the ASCII string
`S<joint_index>,<integer_angle>\n` where the joint index follows the fixed
mapping shoulder=0, elbow=1, wrist=2, hand=3 and the integer angle is the
clamped angle truncated toward zero by `int()` (not rounded to nearest);
in particular encoding `(Shoulder, 90.6)` yields exactly `"S0,90\n"` and
encoding `(Hand, 0.4)` yields exactly `"S3,0\n"`. -/
theorem C1_amended (ok : Bool) (st : ControllerState) (s : Servo) (a : ℚ)
    (h : st.connected = true) :
    (set_servo ok st s a).wire = some (wire_line_spec s a) ∧
    wire_line_spec .shoulder (453/5) = "S0,90\n" ∧
    wire_line_spec .hand (2/5) = "S3,0\n" := by
  refine ⟨set_servo_wire_eq ok st s a h, ?_, ?_⟩
  · have h1 : clamp_angle (453/5) .shoulder = 453/5 := by
      rw [clamp_angle]
      norm_num [SERVO_LIMITS]
    have h2 : pyInt (453/5) = 90 := by
      rw [pyInt, if_neg (by norm_num)]
      norm_num
    rw [wire_line_spec, h1, h2]
    decide
  · have h1 : clamp_angle (2/5) .hand = 2/5 := by
      rw [clamp_angle]
      norm_num [SERVO_LIMITS]
    have h2 : pyInt (2/5) = 0 := by
      rw [pyInt, if_neg (by norm_num)]
      norm_num
    rw [wire_line_spec, h1, h2]
    decide

/-- Witness for C1 (amended) at a connected controller. -/
theorem C1_witness :
    connState.connected = true ∧
    ((set_servo true connState .shoulder (453/5)).wire
        = some (wire_line_spec .shoulder (453/5)) ∧
      wire_line_spec .shoulder (453/5) = "S0,90\n" ∧
      wire_line_spec .hand (2/5) = "S3,0\n") :=
  ⟨rfl, C1_amended true connState .shoulder (453/5) rfl⟩

/-- C3 counterexample: `set_multiple_servos` discards the per-joint
success values — with an oracle under which the shoulder write fails and
an all-success oracle, the entire output (final state and wire trace) is
identical on the same concrete input, so neither an aggregate result nor
a per-joint result list is surfaced (the Python function returns `None`). -/
theorem C3_counterexample :
    set_multiple_servos (fun s => decide (s ≠ .shoulder)) connState
        [(.shoulder, 30), (.elbow, 60)]
      = set_multiple_servos (fun _ => true) connState [(.shoulder, 30), (.elbow, 60)] :=
  set_multiple_servos_oracle_irrel _ _ _ _

/-- C3 (amended): for every angle dictionary, a send failure on one joint
does not prevent the remaining joints from being attempted — on a
connected controller every entry produces its encoded write attempt under
any failure oracle — but the per-joint success/failure values are
discarded rather than surfaced: the output is independent of which writes
fail, and nothing is returned beyond the mutated state and the attempts. -/
theorem C3_amended (f g : Servo → Bool) (st : ControllerState)
    (l : List (Servo × ℚ)) (h : st.connected = true) :
    (set_multiple_servos f st l).2 = (l.map fun p => some (wire_line_spec p.1 p.2)) ∧
    set_multiple_servos f st l = set_multiple_servos g st l :=
  ⟨set_multiple_servos_trace f st l h, set_multiple_servos_oracle_irrel f g st l⟩

/-- Witness for C3 (amended): two joints, shoulder write failing. -/
theorem C3_witness :
    connState.connected = true ∧
    ((set_multiple_servos (fun s => decide (s ≠ .shoulder)) connState
        [(.shoulder, 10), (.hand, 170)]).2
        = ([(.shoulder, 10), (.hand, 170)].map fun p => some (wire_line_spec p.1 p.2)) ∧
      set_multiple_servos (fun s => decide (s ≠ .shoulder)) connState
          [(.shoulder, 10), (.hand, 170)]
        = set_multiple_servos (fun _ => true) connState [(.shoulder, 10), (.hand, 170)]) :=
  ⟨rfl, C3_amended (fun s => decide (s ≠ .shoulder)) (fun _ => true) connState
      [(.shoulder, 10), (.hand, 170)] rfl⟩

/-- C4: starting from the rest position, after any sequence of
`set_servo` / `set_multiple_servos` / `reset_to_rest` operations with
arbitrary (including out-of-limit) target angles and arbitrary write
outcomes, every value returned by `get_current_angles` lies within that
joint's configured `SERVO_LIMITS` (min and max inclusive). -/
theorem C4_angles_within_limits (c : Bool) (ops : List ArmOp) (j : Servo) :
    (SERVO_LIMITS j).1 ≤ get_current_angles (run_ops (init_state c) ops) j ∧
    get_current_angles (run_ops (init_state c) ops) j ≤ (SERVO_LIMITS j).2 :=
  run_ops_preserves_limits (init_state c) ops rest_in_limits j

/-- C9: for every joint and angle, calling `set_servo` while the
controller is not connected returns `False` with no write attempt and
leaves the whole state — in particular every entry of `current_angles` —
unchanged. -/
theorem C9_not_connected_no_effect (ok : Bool) (st : ControllerState) (s : Servo) (a : ℚ)
    (h : st.connected = false) :
    set_servo ok st s a = { state := st, ok := false, wire := none } := by
  rw [set_servo, if_pos h]

/-- Witness for C9 at a freshly initialised (not connected) controller. -/
theorem C9_witness :
    (init_state false).connected = false ∧
    set_servo true (init_state false) .elbow 999
      = { state := init_state false, ok := false, wire := none } :=
  ⟨rfl, C9_not_connected_no_effect true (init_state false) .elbow 999 rfl⟩

/-- C10: when the controller is connected, `set_servo` stores the clamped
angle into `current_angles` regardless of the write outcome, so on a
failed write it returns `False` while `current_angles` already holds the
new clamped angle — the state change is not rolled back. -/
theorem C10_no_rollback_on_failed_write (st : ControllerState) (s : Servo) (a : ℚ)
    (h : st.connected = true) :
    (∀ ok, (set_servo ok st s a).state.current_angles s = clamp_angle a s) ∧
    (set_servo false st s a).ok = false ∧
    (set_servo false st s a).state.current_angles s = clamp_angle a s := by
  have key : ∀ ok : Bool, (set_servo ok st s a).state.current_angles s = clamp_angle a s := by
    intro ok
    rw [set_servo, if_neg (by simp [h])]
    dsimp only
    rw [if_pos rfl]
  have okf : (set_servo false st s a).ok = false := by
    rw [set_servo, if_neg (by simp [h])]
  exact ⟨key, okf, key false⟩

/-- Witness for C10: a failing write of an out-of-limit shoulder angle on
a connected controller. -/
theorem C10_witness :
    connState.connected = true ∧
    ((∀ ok, (set_servo ok connState .shoulder 250).state.current_angles .shoulder
        = clamp_angle 250 .shoulder) ∧
      (set_servo false connState .shoulder 250).ok = false ∧
      (set_servo false connState .shoulder 250).state.current_angles .shoulder
        = clamp_angle 250 .shoulder) :=
  ⟨rfl, C10_no_rollback_on_failed_write connState .shoulder 250 rfl⟩

section MapperLemmas

theorem npClip_unit_mem (v : ℚ) : 0 ≤ npClip v 0 1 ∧ npClip v 0 1 ≤ 1 :=
  ⟨le_max_left _ _, max_le zero_le_one (min_le_left _ _)⟩

theorem pymod_mem (a m : ℚ) (h : 0 < m) : 0 ≤ pymod a m ∧ pymod a m < m := by
  have hm : m ≠ 0 := ne_of_gt h
  have key : a / m * m = a := div_mul_cancel₀ a hm
  have h1 : (⌊a / m⌋ : ℚ) ≤ a / m := Int.floor_le _
  have h2 : a / m < ⌊a / m⌋ + 1 := Int.lt_floor_add_one _
  have l1 : (⌊a / m⌋ : ℚ) * m ≤ a / m * m := mul_le_mul_of_nonneg_right h1 (le_of_lt h)
  have l2 : a / m * m < ((⌊a / m⌋ : ℚ) + 1) * m := by
    apply mul_lt_mul_of_pos_right h2 h
  rw [key] at l1 l2
  constructor
  · rw [pymod]
    nlinarith
  · rw [pymod]
    nlinarith

theorem band_norm_mem (lo hi v : ℚ) (h : lo < hi) :
    0 ≤ (max lo (min hi v) - lo) / (hi - lo) ∧
      (max lo (min hi v) - lo) / (hi - lo) ≤ 1 := by
  have hpos : 0 < hi - lo := by linarith
  constructor
  · apply div_nonneg _ (le_of_lt hpos)
    have := le_max_left lo (min hi v)
    linarith
  · rw [div_le_one hpos]
    have := max_le (le_of_lt h) (min_le_left hi v)
    linarith

theorem map_x_to_shoulder_mem (b : ScreenBounds) (x : ℚ) (hb : b.left < b.right) :
    0 ≤ map_x_to_shoulder b x ∧ map_x_to_shoulder b x ≤ 180 := by
  obtain ⟨h0, h1⟩ := band_norm_mem b.left b.right x hb
  rw [map_x_to_shoulder]
  simp only [servo_ranges]
  constructor <;> nlinarith [h0, h1]

theorem map_y_to_elbow_mem (b : ScreenBounds) (y : ℚ) (hb : b.top < b.bottom) :
    0 ≤ map_y_to_elbow b y ∧ map_y_to_elbow b y ≤ 180 := by
  obtain ⟨h0, h1⟩ := band_norm_mem b.top b.bottom y hb
  rw [map_y_to_elbow]
  simp only [servo_ranges]
  constructor <;> nlinarith [h0, h1]

end MapperLemmas

/-- C5: for every `x` inside the horizontal band the shoulder mapping is
the linear rescale of `x` from the band into the shoulder servo range and
lies within that range; for `x` outside the band it equals exactly the
nearest range boundary (saturation, not extrapolation). -/
theorem C5_shoulder_mapping (b : ScreenBounds) (x : ℚ) (hb : b.left < b.right) :
    (b.left ≤ x → x ≤ b.right →
      map_x_to_shoulder b x
        = (servo_ranges .shoulder).1
            + (x - b.left) / (b.right - b.left)
              * ((servo_ranges .shoulder).2 - (servo_ranges .shoulder).1)) ∧
    ((servo_ranges .shoulder).1 ≤ map_x_to_shoulder b x ∧
      map_x_to_shoulder b x ≤ (servo_ranges .shoulder).2) ∧
    (x ≤ b.left → map_x_to_shoulder b x = (servo_ranges .shoulder).1) ∧
    (b.right ≤ x → map_x_to_shoulder b x = (servo_ranges .shoulder).2) := by
  have hne : b.right - b.left ≠ 0 := sub_ne_zero.mpr (ne_of_gt hb)
  refine ⟨?_, ?_, ?_, ?_⟩
  · intro hl hr
    rw [map_x_to_shoulder]
    rw [min_eq_right hr, max_eq_right hl]
  · exact map_x_to_shoulder_mem b x hb
  · intro hx
    rw [map_x_to_shoulder]
    rw [min_eq_right (by linarith), max_eq_left hx]
    simp
  · intro hx
    rw [map_x_to_shoulder]
    rw [min_eq_left hx, max_eq_right (le_of_lt hb), div_self hne]
    norm_num [servo_ranges]

/-- Witness for C5 at the default screen bounds. -/
theorem C5_witness :
    default_screen_bounds.left < default_screen_bounds.right ∧
    ((default_screen_bounds.left ≤ (1/2 : ℚ) → (1/2 : ℚ) ≤ default_screen_bounds.right →
      map_x_to_shoulder default_screen_bounds (1/2)
        = (servo_ranges .shoulder).1
            + ((1/2 : ℚ) - default_screen_bounds.left)
                / (default_screen_bounds.right - default_screen_bounds.left)
              * ((servo_ranges .shoulder).2 - (servo_ranges .shoulder).1)) ∧
    ((servo_ranges .shoulder).1 ≤ map_x_to_shoulder default_screen_bounds (1/2) ∧
      map_x_to_shoulder default_screen_bounds (1/2) ≤ (servo_ranges .shoulder).2) ∧
    ((1/2 : ℚ) ≤ default_screen_bounds.left →
      map_x_to_shoulder default_screen_bounds (1/2) = (servo_ranges .shoulder).1) ∧
    (default_screen_bounds.right ≤ (1/2 : ℚ) →
      map_x_to_shoulder default_screen_bounds (1/2) = (servo_ranges .shoulder).2)) :=
  ⟨by norm_num [default_screen_bounds],
    C5_shoulder_mapping default_screen_bounds (1/2) (by norm_num [default_screen_bounds])⟩

/-- C7: when the pose input is absent (`hand_center` or `hand_data` is
`None`) the mapper returns the empty dictionary, and the subsequent
smoothing update of `process_frame` performed with an empty mapping
leaves every target angle unchanged. -/
theorem C7_absent_pose (atan2d : ℚ → ℚ → ℚ) (sqrtQ : ℚ → ℚ) (b : ScreenBounds) :
    (∀ hd, hand_position_to_arm atan2d sqrtQ b none hd = .empty) ∧
    (∀ c, hand_position_to_arm atan2d sqrtQ b c none = .empty) ∧
    (∀ factor targets, update_targets factor targets [] = targets) := by
  refine ⟨fun hd => ?_, fun c => ?_, fun factor targets => rfl⟩
  · cases hd <;> rfl
  · cases c with
    | none => rfl
    | some p =>
      cases p
      rfl

/-- C2 counterexample: on a pose with fewer than the expected 21 keypoints
(here an empty keypoint list, with a present hand center) the mapper does
not behave as if the pose were absent: the keypoint access raises an
`IndexError` instead of returning the empty result. -/
theorem C2_counterexample :
    hand_position_to_arm (fun _ _ => 0) (fun _ => 0) default_screen_bounds
        (some (1/2, 1/2)) (some { keypoints := [] })
      = .indexError ∧ (MapResult.indexError ≠ MapResult.empty) := by
  constructor
  · rfl
  · intro h
    cases h

/-- C2 (amended): the mapper rejects only absent inputs (`hand_center` or
`hand_data` being `None`) by returning the empty dictionary; an input pose
with fewer than the expected 21 keypoints is not rejected and not treated
as absent — the keypoint access raises an uncaught `IndexError` instead of
producing the empty result (and coordinate values are never validated). -/
theorem C2_amended (atan2d : ℚ → ℚ → ℚ) (sqrtQ : ℚ → ℚ) (b : ScreenBounds)
    (x y : ℚ) (hd : HandData) (h : hd.keypoints.length < 21) :
    hand_position_to_arm atan2d sqrtQ b (some (x, y)) (some hd) = .indexError := by
  have h20 : hd.keypoints.get? 20 = none := by
    rw [List.get?_eq_none]
    omega
  have hop : calculate_hand_openness sqrtQ hd = none := by
    rw [calculate_hand_openness]
    rcases hd.keypoints.get? 4 with _ | k4
    · rfl
    rcases hd.keypoints.get? 8 with _ | k8
    · rfl
    rcases hd.keypoints.get? 12 with _ | k12
    · rfl
    rcases hd.keypoints.get? 16 with _ | k16
    · rfl
    rw [h20]
    rfl
  rcases hrot : calculate_hand_rotation atan2d hd with _ | w <;>
    simp [hand_position_to_arm, hrot, hop]

/-- Witness for C2 (amended): a pose with an empty keypoint list. -/
theorem C2_witness :
    (HandData.mk []).keypoints.length < 21 ∧
    hand_position_to_arm (fun _ _ => 0) (fun _ => 0) default_screen_bounds
        (some (1/2, 1/2)) (some (HandData.mk [])) = .indexError :=
  ⟨by decide,
    C2_amended (fun _ _ => 0) (fun _ => 0) default_screen_bounds (1/2) (1/2)
      (HandData.mk []) (by decide)⟩

/-- C8: for every well-formed pose (21 keypoints) and present hand
center, the mapper returns a full four-angle dictionary whose shoulder,
elbow and hand-openness angles lie in `[0, 180]` and whose wrist angle —
the `atan2` degrees shifted by `+90` and reduced modulo `180` — lies in
`[0, 180)`, before any external clamping. -/
theorem C8_outputs_bounded (atan2d : ℚ → ℚ → ℚ) (sqrtQ : ℚ → ℚ) (b : ScreenBounds)
    (x y : ℚ) (hd : HandData)
    (hb1 : b.left < b.right) (hb2 : b.top < b.bottom)
    (h : hd.keypoints.length = 21) :
    ∃ s e w ha,
      hand_position_to_arm atan2d sqrtQ b (some (x, y)) (some hd)
        = .angles s e w ha ∧
      0 ≤ s ∧ s ≤ 180 ∧ 0 ≤ e ∧ e ≤ 180 ∧ 0 ≤ w ∧ w < 180 ∧ 0 ≤ ha ∧ ha ≤ 180 := by
  have hget : ∀ i, i < 21 → ∃ k, hd.keypoints.get? i = some k := by
    intro i hi
    cases hk : hd.keypoints.get? i with
    | some k => exact ⟨k, rfl⟩
    | none =>
      rw [List.get?_eq_none] at hk
      omega
  obtain ⟨kp0, h0⟩ := hget 0 (by norm_num)
  obtain ⟨kp9, h9⟩ := hget 9 (by norm_num)
  obtain ⟨kp4, h4⟩ := hget 4 (by norm_num)
  obtain ⟨kp8, h8⟩ := hget 8 (by norm_num)
  obtain ⟨kp12, h12⟩ := hget 12 (by norm_num)
  obtain ⟨kp16, h16⟩ := hget 16 (by norm_num)
  obtain ⟨kp20, h20⟩ := hget 20 (by norm_num)
  obtain ⟨u, hrot⟩ : ∃ u, calculate_hand_rotation atan2d hd = some (pymod u 180) := by
    refine ⟨atan2d (kp9.y - kp0.y) (kp9.x - kp0.x) + 90, ?_⟩
    rw [calculate_hand_rotation, h0, h9]
    rfl
  obtain ⟨v, hop⟩ :
      ∃ v, calculate_hand_openness sqrtQ hd = some ((1 - npClip v 0 1) * 180) := by
    refine ⟨((sqrtQ ((kp4.x - kp0.x) ^ 2 + (kp4.y - kp0.y) ^ 2)
        + sqrtQ ((kp8.x - kp0.x) ^ 2 + (kp8.y - kp0.y) ^ 2)
        + sqrtQ ((kp12.x - kp0.x) ^ 2 + (kp12.y - kp0.y) ^ 2)
        + sqrtQ ((kp16.x - kp0.x) ^ 2 + (kp16.y - kp0.y) ^ 2)
        + sqrtQ ((kp20.x - kp0.x) ^ 2 + (kp20.y - kp0.y) ^ 2)) / 5) / (2/5), ?_⟩
    rw [calculate_hand_openness, h4, h8, h12, h16, h20, h0]
    rfl
  refine ⟨map_x_to_shoulder b x, map_y_to_elbow b y, pymod u 180,
    (1 - npClip v 0 1) * 180, ?_, ?_, ?_, ?_, ?_, ?_, ?_, ?_, ?_⟩
  · rw [hand_position_to_arm, hrot, hop]
  · exact (map_x_to_shoulder_mem b x hb1).1
  · exact (map_x_to_shoulder_mem b x hb1).2
  · exact (map_y_to_elbow_mem b y hb2).1
  · exact (map_y_to_elbow_mem b y hb2).2
  · exact (pymod_mem u 180 (by norm_num)).1
  · exact (pymod_mem u 180 (by norm_num)).2
  · obtain ⟨hc0, hc1⟩ := npClip_unit_mem v
    nlinarith
  · obtain ⟨hc0, hc1⟩ := npClip_unit_mem v
    nlinarith

/-- Witness for C8 at a concrete 21-keypoint pose. -/
theorem C8_witness :
    default_screen_bounds.left < default_screen_bounds.right ∧
    default_screen_bounds.top < default_screen_bounds.bottom ∧
    (HandData.mk (List.replicate 21 (Keypoint.mk 0 0 0 0))).keypoints.length = 21 ∧
    (∃ s e w ha,
      hand_position_to_arm (fun _ _ => 37) (fun q => q) default_screen_bounds
          (some (1/2, 1/2)) (some (HandData.mk (List.replicate 21 (Keypoint.mk 0 0 0 0))))
        = .angles s e w ha ∧
      0 ≤ s ∧ s ≤ 180 ∧ 0 ≤ e ∧ e ≤ 180 ∧ 0 ≤ w ∧ w < 180 ∧ 0 ≤ ha ∧ ha ≤ 180) :=
  ⟨by norm_num [default_screen_bounds], by norm_num [default_screen_bounds], by simp,
    C8_outputs_bounded (fun _ _ => 37) (fun q => q) default_screen_bounds (1/2) (1/2)
      (HandData.mk (List.replicate 21 (Keypoint.mk 0 0 0 0)))
      (by norm_num [default_screen_bounds]) (by norm_num [default_screen_bounds])
      (by simp)⟩

section SmoothingLemmas

theorem smooth_error (factor t c : ℚ) (n : ℕ) :
    t - smooth_iter factor t c n = (1 - factor) ^ n * (t - c) := by
  induction n with
  | zero =>
    rw [smooth_iter, pow_zero, one_mul]
  | succ n ih =>
    rw [smooth_iter, smooth_step, pow_succ]
    linear_combination (1 - factor) * ih

theorem smooth_error_abs (factor t c : ℚ) (n : ℕ) (h : factor ≤ 1) :
    |t - smooth_iter factor t c n| = (1 - factor) ^ n * |t - c| := by
  rw [smooth_error, abs_mul, abs_of_nonneg (pow_nonneg (by linarith) n)]

theorem bernoulli_decay (factor : ℚ) (h0 : 0 < factor) (h1 : factor ≤ 1) (n : ℕ) :
    (1 + n * factor) * (1 - factor) ^ n ≤ 1 := by
  have hα : (0 : ℚ) ≤ 1 - factor := by linarith
  have hpow : (0 : ℚ) ≤ (1 - factor) ^ n := pow_nonneg hα n
  have hb : 1 + n * factor ≤ (1 + factor) ^ n := one_add_mul_le_pow (by linarith) n
  have step1 : (1 + n * factor) * (1 - factor) ^ n ≤ (1 + factor) ^ n * (1 - factor) ^ n :=
    mul_le_mul_of_nonneg_right hb hpow
  have step2 : (1 + factor) ^ n * (1 - factor) ^ n = ((1 + factor) * (1 - factor)) ^ n :=
    (mul_pow _ _ _).symm
  have step3 : ((1 + factor) * (1 - factor)) ^ n ≤ 1 := by
    apply pow_le_one₀ <;> nlinarith
  calc (1 + n * factor) * (1 - factor) ^ n
      ≤ (1 + factor) ^ n * (1 - factor) ^ n := step1
    _ = ((1 + factor) * (1 - factor)) ^ n := step2
    _ ≤ 1 := step3

end SmoothingLemmas

/-- C6: for every smoothing factor in `(0, 1]`, iterating the step
`new_current = current + factor * (target - current)` toward a fixed
target shrinks the absolute error monotonically, never overshoots past
the target (the iterates stay between the start and the target), and
comes within any tolerance `ε` once the iteration count reaches the order
of `1 / factor` — concretely whenever `|target - start| ≤ ε * (1 + n * factor)`. -/
theorem C6_smoothing_convergence (factor t c : ℚ) (h0 : 0 < factor) (h1 : factor ≤ 1) :
    (∀ n, |t - smooth_iter factor t c (n + 1)| ≤ |t - smooth_iter factor t c n|) ∧
    (c ≤ t → ∀ n, c ≤ smooth_iter factor t c n ∧ smooth_iter factor t c n ≤ t) ∧
    (t ≤ c → ∀ n, t ≤ smooth_iter factor t c n ∧ smooth_iter factor t c n ≤ c) ∧
    (∀ ε : ℚ, 0 < ε → ∀ n : ℕ, |t - c| ≤ ε * (1 + n * factor) →
      |t - smooth_iter factor t c n| ≤ ε) := by
  have hα : (0 : ℚ) ≤ 1 - factor := by linarith
  have hpow : ∀ n : ℕ, (0 : ℚ) ≤ (1 - factor) ^ n := fun n => pow_nonneg hα n
  have hle1 : ∀ n : ℕ, (1 - factor) ^ n ≤ 1 := fun n => pow_le_one₀ hα (by linarith)
  refine ⟨?_, ?_, ?_, ?_⟩
  · intro n
    rw [smooth_error_abs factor t c (n + 1) h1, smooth_error_abs factor t c n h1, pow_succ]
    have key : 0 ≤ (1 - factor) ^ n * |t - c| * factor := by positivity
    nlinarith [key]
  · intro hct n
    have he := smooth_error factor t c n
    constructor <;> nlinarith [hpow n, hle1 n]
  · intro htc n
    have he := smooth_error factor t c n
    constructor <;> nlinarith [hpow n, hle1 n]
  · intro ε hε n hn
    rw [smooth_error_abs factor t c n h1]
    have hb := bernoulli_decay factor h0 h1 n
    nlinarith [hpow n, mul_le_mul_of_nonneg_left hn (hpow n),
      mul_le_mul_of_nonneg_left hb (le_of_lt hε)]

/-- Witness for C6 at the configured smoothing factor, target 100 from
start 0. -/
theorem C6_witness :
    0 < SMOOTHING_FACTOR ∧ SMOOTHING_FACTOR ≤ 1 ∧
    ((∀ n, |(100 : ℚ) - smooth_iter SMOOTHING_FACTOR 100 0 (n + 1)|
        ≤ |(100 : ℚ) - smooth_iter SMOOTHING_FACTOR 100 0 n|) ∧
      ((0 : ℚ) ≤ 100 → ∀ n, (0 : ℚ) ≤ smooth_iter SMOOTHING_FACTOR 100 0 n ∧
        smooth_iter SMOOTHING_FACTOR 100 0 n ≤ 100) ∧
      ((100 : ℚ) ≤ 0 → ∀ n, (100 : ℚ) ≤ smooth_iter SMOOTHING_FACTOR 100 0 n ∧
        smooth_iter SMOOTHING_FACTOR 100 0 n ≤ 0) ∧
      (∀ ε : ℚ, 0 < ε → ∀ n : ℕ, |(100 : ℚ) - 0| ≤ ε * (1 + n * SMOOTHING_FACTOR) →
        |(100 : ℚ) - smooth_iter SMOOTHING_FACTOR 100 0 n| ≤ ε)) :=
  ⟨by norm_num [SMOOTHING_FACTOR], by norm_num [SMOOTHING_FACTOR],
    C6_smoothing_convergence SMOOTHING_FACTOR 100 0
      (by norm_num [SMOOTHING_FACTOR]) (by norm_num [SMOOTHING_FACTOR])⟩

end ProstheticArm
